import Mathlib

/-
Verification of the vaxp_dock platform glue:
  - src/linux/runner/my_application.cc  (window staging controller)
  - src/src/icon_loader.c               (icon path resolver)

The embedding follows the source line by line.  Machine integers are modelled
as Int (no arithmetic here approaches 32-bit bounds: the only products are
60 * scale_factor and 4 * scale_factor with an integer scale factor returned
by gdk_monitor_get_scale_factor, which are exact in the C double arithmetic
the source uses and far below overflow).  Side effects on the toolkit and on
the X server are modelled as explicit action traces; the C heap used by
strdup and free is an explicit list of cells.
-/

namespace VaxpDock

/-- GdkRectangle as filled in by gdk_monitor_get_geometry. -/
structure GdkRectangle where
  x : Int
  y : Int
  width : Int
  height : Int
  deriving Repr, DecidableEq

/-- The fields of struct _MyApplication (my_application.cc lines 13-20):
the stored dart entrypoint arguments and the three persisted geometry
fields window_height, window_width, bottom_margin. -/
structure MyApplication where
  dart_entrypoint_arguments : List String
  window_height : Int
  window_width : Int
  bottom_margin : Int
  deriving Repr, DecidableEq

/-- The environment my_application_activate reads: the primary monitor's
geometry and integer scale factor, and whether the screen offers an RGBA
visual. -/
structure ActivateEnv where
  geometry : GdkRectangle
  scale_factor : Int
  rgbaVisualAvailable : Bool
  deriving Repr, DecidableEq

/-- The two widgets the runner manipulates: the top-level window and the
embedded FlView. -/
inductive Widget where
  | window
  | view
  deriving Repr, DecidableEq

/-- Toolkit-level effects performed by my_application_activate, in program
order (my_application.cc lines 73-138). -/
inductive Action where
  | setAppPaintable
  | setVisualRGBA
  | setDefaultSize (w h : Int)
  | setSizeRequest (w h : Int)
  | setDecorated (b : Bool)
  | stick
  | setKeepAbove (b : Bool)
  | setTypeHintDock
  | realize
  | move (x y : Int)
  | setBackgroundTransparent
  | showWidget (w : Widget)
  | addViewToWindow
  | connectFirstFrame
  | registerPlugins
  | grabFocus
  deriving Repr, DecidableEq

/-- my_application_activate (my_application.cc lines 73-138).  Computes
window_height = 60 * scale_factor, window_width = monitor width,
bottom_margin = 4 * scale_factor (lines 95-97), persists them on the
application object (lines 100-102), and performs the toolkit calls in
source order, ending without ever showing the top-level window. -/
def my_application_activate (self : MyApplication) (env : ActivateEnv) :
    MyApplication × List Action :=
  let window_height : Int := 60 * env.scale_factor
  let window_width : Int := env.geometry.width
  let bottom_margin : Int := 4 * env.scale_factor
  let self' : MyApplication :=
    { self with
      window_height := window_height
      window_width := window_width
      bottom_margin := bottom_margin }
  (self',
    [Action.setAppPaintable]
    ++ (if env.rgbaVisualAvailable then [Action.setVisualRGBA] else [])
    ++ [Action.setDefaultSize window_width window_height,
        Action.setSizeRequest window_width window_height,
        Action.setDecorated false,
        Action.stick,
        Action.setKeepAbove true,
        Action.setTypeHintDock,
        Action.realize,
        Action.move 0 (env.geometry.height - window_height - bottom_margin),
        Action.setBackgroundTransparent,
        Action.showWidget Widget.view,
        Action.addViewToWindow,
        Action.connectFirstFrame,
        Action.registerPlugins,
        Action.grabFocus])

/-- X11 protocol effects performed by first_frame_cb under X11. -/
inductive X11Action where
  | changePropertyAtoms (prop : String) (atoms : List String)
  | changePropertyCardinals (prop : String) (values : List Int)
  | setInputFocusNone
  | flush
  deriving Repr, DecidableEq

/-- Effects performed by first_frame_cb. -/
inductive CbAction where
  | showWidget (w : Widget)
  | x11 (a : X11Action)
  deriving Repr, DecidableEq

/-- The 12-element strut buffer of first_frame_cb (my_application.cc lines
53-59): long strut[12] = \x7b0\x7d; then strut[3] = window_height +
bottom_margin; strut[10] = 0; strut[11] = window_width. -/
def strutArray (window_height window_width bottom_margin : Int) : List Int :=
  (((List.replicate 12 (0 : Int)).set 3 (window_height + bottom_margin)).set
      10 0).set 11 window_width

/-- first_frame_cb (my_application.cc lines 24-71): always shows the
top-level window first; when the backend is X11 it then writes the
_NET_WM_STATE atoms, the 12-element _NET_WM_STRUT_PARTIAL array, the first 4
elements of the same buffer as _NET_WM_STRUT, clears input focus and
flushes. -/
def first_frame_cb (self : MyApplication) (isX11 : Bool) : List CbAction :=
  CbAction.showWidget Widget.window ::
    (if isX11 then
      let strut := strutArray self.window_height self.window_width
        self.bottom_margin
      [CbAction.x11 (X11Action.changePropertyAtoms "_NET_WM_STATE"
          ["_NET_WM_STATE_STICKY", "_NET_WM_STATE_ABOVE"]),
       CbAction.x11 (X11Action.changePropertyCardinals "_NET_WM_STRUT_PARTIAL"
          strut),
       CbAction.x11 (X11Action.changePropertyCardinals "_NET_WM_STRUT"
          (strut.take 4)),
       CbAction.x11 X11Action.setInputFocusNone,
       CbAction.x11 X11Action.flush]
    else [])

/-- Recognizer for the move call in the activate trace. -/
def isMoveAction : Action → Bool
  | Action.move _ _ => true
  | _ => false

/-- Recognizer for a show of the top-level window in the activate trace. -/
def isShowWindow : Action → Bool
  | Action.showWidget Widget.window => true
  | _ => false

/-- GObject signal-connection state for the view's first-frame signal:
how many handler connections are live and how many times first_frame_cb has
run.  g_signal_connect_swapped (my_application.cc line 134) adds one
persistent connection; nothing in the program ever disconnects it. -/
structure SignalState where
  connections : Nat
  runs : Nat
  deriving Repr, DecidableEq

/-- One emission of the first-frame signal: GObject invokes every live
handler once.  first_frame_cb contains no g_signal_handler_disconnect, so
the connection count is unchanged by running it. -/
def emitFirstFrame (st : SignalState) : SignalState :=
  { st with runs := st.runs + st.connections }

/-- n successive emissions of the first-frame signal. -/
def emitN : Nat → SignalState → SignalState
  | 0, st => st
  | n + 1, st => emitN n (emitFirstFrame st)

/-- The signal state right after my_application_activate returns: one
connection per connectFirstFrame call in the activate trace, zero runs. -/
def signalStateAfterActivate (self : MyApplication) (env : ActivateEnv) :
    SignalState :=
  { connections :=
      ((my_application_activate self env).2.filter
        (fun a => decide (a = Action.connectFirstFrame))).length
    runs := 0 }

/-- my_application_local_command_line (my_application.cc lines 140-154).
Stores g_strdupv(*arguments + 1) — all arguments after the program name —
then registers; on registration failure sets exit_status 1 and returns
without activating, otherwise activates and sets exit_status 0.  Result:
(updated self, exit_status, activation invoked, handled = TRUE). -/
def my_application_local_command_line (self : MyApplication)
    (arguments : List String) (registerSucceeds : Bool) :
    MyApplication × Int × Bool × Bool :=
  let self' :=
    { self with dart_entrypoint_arguments := arguments.drop 1 }
  if registerSucceeds then (self', 0, true, true)
  else (self', 1, false, true)

/-- A GtkIconInfo handle as far as icon_loader.c observes it: the filename
gtk_icon_info_get_filename reports (NULL for icons with no backing file). -/
structure GtkIconInfo where
  filename : Option String
  deriving Repr, DecidableEq

/-- The active icon theme, as a lookup: gtk_icon_theme_lookup_icon with
GTK_ICON_LOOKUP_FORCE_SIZE maps a name and a size to an optional icon
handle. -/
def ThemeFn : Type := String → Int → Option GtkIconInfo

/-- The toolkit environment get_icon_path reads:
gtk_icon_theme_get_default may return NULL. -/
structure IconEnv where
  theme : Option ThemeFn

/-- The C heap touched by strdup and free: cell number a holds mem.getD a
none; none means unallocated or freed. -/
structure Heap where
  mem : List (Option String)
  deriving Repr, DecidableEq

/-- Read heap cell a. -/
def Heap.load (h : Heap) (a : Nat) : Option String :=
  h.mem.getD a none

/-- gtk_icon_theme_lookup_icon: dereferences its theme argument (crash on
NULL), then answers from the theme. -/
def gtk_icon_theme_lookup_icon (theme : Option ThemeFn) (icon_name : String)
    (size : Int) : Except String (Option GtkIconInfo) :=
  match theme with
  | none => Except.error "lookup_icon: NULL theme"
  | some t => Except.ok (t icon_name size)

/-- gtk_icon_info_get_filename: dereferences its info argument (crash on
NULL), then reports the stored filename, which may itself be NULL. -/
def gtk_icon_info_get_filename (info : Option GtkIconInfo) :
    Except String (Option String) :=
  match info with
  | none => Except.error "get_filename: NULL info"
  | some i => Except.ok i.filename

/-- strdup: dereferences its argument (crash on NULL), then allocates a
fresh cell holding a copy of the string and returns its address. -/
def c_strdup (hp : Heap) (p : Option String) : Except String (Nat × Heap) :=
  match p with
  | none => Except.error "strdup: NULL argument"
  | some s => Except.ok (hp.mem.length, ⟨hp.mem ++ [some s]⟩)

/-- g_object_unref: dereferences its argument (crash on NULL); releasing the
icon handle has no further observable effect in this model. -/
def g_object_unref (info : Option GtkIconInfo) : Except String Unit :=
  match info with
  | none => Except.error "unref: NULL object"
  | some _ => Except.ok ()

/-- free: a no-op on NULL, otherwise deallocates the cell. -/
def c_free (hp : Heap) (p : Option Nat) : Heap :=
  match p with
  | none => hp
  | some a => ⟨hp.mem.set a none⟩

/-- get_icon_path (icon_loader.c lines 14-26), line by line.  The result is
(returned pointer, heap, whether g_object_unref(info) was executed before
returning); Except.error marks a NULL dereference, which the source's
guards must make unreachable. -/
def get_icon_path (env : IconEnv) (hp : Heap) (icon_name : String)
    (size : Int) : Except String (Option Nat × Heap × Bool) :=
  match env.theme with
  | none => Except.ok (none, hp, false)
  | some theme =>
    match gtk_icon_theme_lookup_icon (some theme) icon_name size with
    | Except.error e => Except.error e
    | Except.ok none => Except.ok (none, hp, false)
    | Except.ok (some i) =>
      match gtk_icon_info_get_filename (some i) with
      | Except.error e => Except.error e
      | Except.ok path =>
        let step : Except String (Option Nat × Heap) :=
          match path with
          | some p =>
            match c_strdup hp (some p) with
            | Except.error e => Except.error e
            | Except.ok (addr, hp') => Except.ok (some addr, hp')
          | none => Except.ok (none, hp)
        match step with
        | Except.error e => Except.error e
        | Except.ok (result, hp') =>
          match g_object_unref (some i) with
          | Except.error e => Except.error e
          | Except.ok _ => Except.ok (result, hp', true)

/-- free_icon_path (icon_loader.c lines 29-31): forwards to free. -/
def free_icon_path (hp : Heap) (path : Option Nat) : Heap :=
  c_free hp path

/-- Did the computation avoid every crash branch? -/
def exceptOk {ε α : Type} : Except ε α → Bool
  | Except.ok _ => true
  | Except.error _ => false

/-- Concrete icon theme used by the closed witnesses: knows one icon. -/
def themeA : ThemeFn := fun n s =>
  if n = "firefox" ∧ s = 32 then
    some ⟨some "/usr/share/icons/hicolor/32x32/apps/firefox.png"⟩
  else none

/-- Environment with the concrete theme. -/
def iconEnvA : IconEnv := ⟨some themeA⟩

/-- Environment with no active icon theme. -/
def iconEnvNone : IconEnv := ⟨none⟩

/-- The empty heap. -/
def heap0 : Heap := ⟨[]⟩

/-- Concrete application state for closed witnesses. -/
def self0 : MyApplication := ⟨[], 0, 0, 0⟩

/-- Concrete activation environment for closed witnesses: a 1920 by 1080
monitor at scale factor 1 with an RGBA visual. -/
def env0 : ActivateEnv := ⟨⟨0, 0, 1920, 1080⟩, 1, true⟩

/-! Helper lemmas. -/

/-- getD is unchanged by setting a different index. -/
theorem list_getD_set_ne {α : Type} (l : List α) {i j : Nat} (x d : α)
    (h : i ≠ j) : (l.set i x).getD j d = l.getD j d := by
  simp [List.getD_eq_getElem?_getD, List.getElem?_set_ne h]

/-- getD at a set index below the length returns the written value. -/
theorem list_getD_set_self {α : Type} (l : List α) {i : Nat} (x d : α)
    (h : i < l.length) : (l.set i x).getD i d = x := by
  simp [List.getD_eq_getElem?_getD, List.getElem?_set_self h]

/-- getD at the old length of a one-element extension is the new element. -/
theorem list_getD_concat_length {α : Type} (l : List α) (x d : α) :
    (l ++ [x]).getD l.length d = x := by
  simp [List.getD_eq_getElem?_getD, List.getElem?_concat_length]

/-- getD below the left part of an append reads from the left part. -/
theorem list_getD_append_left {α : Type} (l l2 : List α) {n : Nat} (d : α)
    (h : n < l.length) : (l ++ l2).getD n d = l.getD n d := by
  simp [List.getD_eq_getElem?_getD, List.getElem?_append_left h]

/-- getD past the end is the default. -/
theorem list_getD_len_le {α : Type} (l : List α) {n : Nat} (d : α)
    (h : l.length ≤ n) : l.getD n d = d := by
  simp [List.getD_eq_getElem?_getD, List.getElem?_len_le h]

/-- On the successful lookup path, get_icon_path allocates a fresh cell at
the current end of the heap holding a copy of the filename, releases the
handle, and returns the fresh address. -/
theorem get_icon_path_found (env : IconEnv) (hp : Heap) (icon_name : String)
    (size : Int) (t : ThemeFn) (i : GtkIconInfo) (p : String)
    (h1 : env.theme = some t) (h2 : t icon_name size = some i)
    (h3 : i.filename = some p) :
    get_icon_path env hp icon_name size
      = Except.ok (some hp.mem.length, ⟨hp.mem ++ [some p]⟩, true) := by
  simp [get_icon_path, gtk_icon_theme_lookup_icon, gtk_icon_info_get_filename,
    c_strdup, g_object_unref, h1, h2, h3]

/-- Running the first-frame handlers n times accumulates one run per
connection per emission and never changes the connection count. -/
theorem emitN_runs (n : Nat) (st : SignalState) :
    (emitN n st).runs = st.runs + n * st.connections ∧
    (emitN n st).connections = st.connections := by
  induction n generalizing st with
  | zero => simp [emitN]
  | succ k ih =>
    have h := ih (emitFirstFrame st)
    simp only [emitN, emitFirstFrame] at h ⊢
    refine ⟨h.1.trans ?_, h.2⟩
    ring

/-- Exactly one first-frame handler connection is made by activate. -/
theorem connections_after_activate (self : MyApplication)
    (env : ActivateEnv) :
    (signalStateAfterActivate self env).connections = 1 := by
  cases env with
  | mk g s rgba => cases rgba <;> rfl

/-! Claim theorems. -/

/-- Claim C1, counterexample: the claim says the partial-strut array has
exactly three non-zero entries at indices 3, 10 and 11; but the code
assigns 0 to index 10, so at window_height 60, window_width 1920,
bottom_margin 4 the array has exactly two non-zero entries. -/
theorem C1_strut_nonzero_count_counterexample :
    (strutArray 60 1920 4).countP (fun v => decide (v ≠ 0)) = 2
    ∧ ¬ (strutArray 60 1920 4).countP (fun v => decide (v ≠ 0)) = 3 := by
  decide

/-- Claim C1, amended: the 12-element partial-strut array is zero at every
index other than 3 and 11, with index 3 holding window_height +
bottom_margin, index 10 holding 0 and index 11 holding window_width; the
callback writes it as _NET_WM_STRUT_PARTIAL and writes its first 4 elements
as the legacy _NET_WM_STRUT. -/
theorem C1_strut_layout_amended (self : MyApplication) :
    strutArray self.window_height self.window_width self.bottom_margin
      = [0, 0, 0, self.window_height + self.bottom_margin,
         0, 0, 0, 0, 0, 0, 0, self.window_width]
    ∧ CbAction.x11 (X11Action.changePropertyCardinals "_NET_WM_STRUT_PARTIAL"
        (strutArray self.window_height self.window_width self.bottom_margin))
        ∈ first_frame_cb self true
    ∧ CbAction.x11 (X11Action.changePropertyCardinals "_NET_WM_STRUT"
        ((strutArray self.window_height self.window_width
          self.bottom_margin).take 4))
        ∈ first_frame_cb self true
    ∧ (strutArray self.window_height self.window_width
        self.bottom_margin).take 4
      = [0, 0, 0, self.window_height + self.bottom_margin] := by
  refine ⟨rfl, ?_, ?_, rfl⟩ <;> simp [first_frame_cb]

/-- Claim C2, counterexample: the registered first-frame handler is not
one-shot; with the concrete application state after activate, two emissions
of the signal run the callback twice, contradicting at most once. -/
theorem C2_one_shot_counterexample :
    ¬ (emitN 2 (signalStateAfterActivate self0 env0)).runs ≤ 1 := by
  decide

/-- Claim C2, amended: the handler registered by g_signal_connect_swapped
is a single persistent connection which nothing disconnects, so the
first-frame callback runs exactly once per emission of the signal: after n
emissions it has run n times. -/
theorem C2_runs_per_emission (self : MyApplication) (env : ActivateEnv)
    (n : Nat) :
    (emitN n (signalStateAfterActivate self env)).runs = n := by
  have h := emitN_runs n (signalStateAfterActivate self env)
  rw [h.1, connections_after_activate]
  simp [signalStateAfterActivate]

/-- Claim C3: for a monitor with scale factor s at least 1, activate
persists window_height = 60 * s, window_width = monitor width and
bottom_margin = 4 * s on the application object. -/
theorem C3_geometry_computation (self : MyApplication) (env : ActivateEnv)
    (h : 1 ≤ env.scale_factor) :
    (my_application_activate self env).1.window_height
      = 60 * env.scale_factor
    ∧ (my_application_activate self env).1.window_width
      = env.geometry.width
    ∧ (my_application_activate self env).1.bottom_margin
      = 4 * env.scale_factor :=
  ⟨rfl, rfl, rfl⟩

/-- Witness for C3 at a concrete 1920 by 1080 monitor with scale factor 1. -/
theorem C3_geometry_computation_witness :
    (1 : Int) ≤ env0.scale_factor
    ∧ ((my_application_activate self0 env0).1.window_height
        = 60 * env0.scale_factor
      ∧ (my_application_activate self0 env0).1.window_width
        = env0.geometry.width
      ∧ (my_application_activate self0 env0).1.bottom_margin
        = 4 * env0.scale_factor) :=
  ⟨by decide, C3_geometry_computation self0 env0 (by decide)⟩

/-- Claim C4: the only move request issued during activate places the
window at x = 0 and y = monitor height minus the persisted window height
minus the persisted bottom margin. -/
theorem C4_window_position (self : MyApplication) (env : ActivateEnv) :
    (my_application_activate self env).2.filter isMoveAction
      = [Action.move 0 (env.geometry.height
          - (my_application_activate self env).1.window_height
          - (my_application_activate self env).1.bottom_margin)] := by
  cases env with
  | mk g s rgba => cases rgba <;> rfl

/-- Claim C6: activate never shows the top-level window, and the very
first effect of the first-frame callback, under X11 or not, is showing the
top-level window. -/
theorem C6_deferred_reveal (self : MyApplication) (env : ActivateEnv)
    (isX11 : Bool) :
    (my_application_activate self env).2.filter isShowWindow = []
    ∧ (first_frame_cb self isX11).head?
      = some (CbAction.showWidget Widget.window) := by
  refine ⟨?_, rfl⟩
  cases env with
  | mk g s rgba => cases rgba <;> rfl

/-- Claim C7: the local command-line hook stores all arguments after the
program name, and when registration succeeds it activates and reports exit
status 0, while on registration failure it reports exit status 1 without
activating; in both cases it handles the command line. -/
theorem C7_command_line (self : MyApplication) (arguments : List String) :
    my_application_local_command_line self arguments true
      = ({ self with dart_entrypoint_arguments := arguments.drop 1 },
          0, true, true)
    ∧ my_application_local_command_line self arguments false
      = ({ self with dart_entrypoint_arguments := arguments.drop 1 },
          1, false, true) :=
  ⟨rfl, rfl⟩

/-- Claim C5: get_icon_path returns absence when no icon theme is active,
returns absence when the theme reports no match for the name at the forced
size, and on a match with a filename returns a freshly allocated,
caller-owned copy of the path (at an address unused in the incoming heap),
with the lookup handle released before returning. -/
theorem C5_resolve_contract (env : IconEnv) (hp : Heap) (icon_name : String)
    (size : Int) (t : ThemeFn) (i : GtkIconInfo) (p : String) :
    (env.theme = none →
      get_icon_path env hp icon_name size = Except.ok (none, hp, false))
    ∧ (env.theme = some t → t icon_name size = none →
      get_icon_path env hp icon_name size = Except.ok (none, hp, false))
    ∧ (env.theme = some t → t icon_name size = some i →
       i.filename = some p →
      get_icon_path env hp icon_name size
        = Except.ok (some hp.mem.length, ⟨hp.mem ++ [some p]⟩, true)
      ∧ hp.load hp.mem.length = none
      ∧ Heap.load ⟨hp.mem ++ [some p]⟩ hp.mem.length = some p) := by
  refine ⟨fun h1 => ?_, fun h1 h2 => ?_, fun h1 h2 h3 => ?_⟩
  · simp [get_icon_path, h1]
  · simp [get_icon_path, gtk_icon_theme_lookup_icon, h1, h2]
  · exact ⟨get_icon_path_found env hp icon_name size t i p h1 h2 h3,
      list_getD_len_le hp.mem none (le_refl _),
      list_getD_concat_length hp.mem (some p) none⟩

/-- Witness for C5: all three branches at the concrete theme that knows
only the firefox icon at size 32, on the empty heap. -/
theorem C5_resolve_contract_witness :
    get_icon_path iconEnvNone heap0 "firefox" 32
      = Except.ok (none, heap0, false)
    ∧ get_icon_path iconEnvA heap0 "unknown-icon" 32
      = Except.ok (none, heap0, false)
    ∧ (get_icon_path iconEnvA heap0 "firefox" 32
        = Except.ok (some heap0.mem.length,
            ⟨heap0.mem
              ++ [some "/usr/share/icons/hicolor/32x32/apps/firefox.png"]⟩,
            true)
      ∧ heap0.load heap0.mem.length = none
      ∧ Heap.load
          ⟨heap0.mem
            ++ [some "/usr/share/icons/hicolor/32x32/apps/firefox.png"]⟩
          heap0.mem.length
        = some "/usr/share/icons/hicolor/32x32/apps/firefox.png") :=
  ⟨(C5_resolve_contract iconEnvNone heap0 "firefox" 32 themeA ⟨none⟩ "p").1
      rfl,
   (C5_resolve_contract iconEnvA heap0 "unknown-icon" 32 themeA ⟨none⟩
      "p").2.1 rfl (by decide),
   (C5_resolve_contract iconEnvA heap0 "firefox" 32 themeA
      ⟨some "/usr/share/icons/hicolor/32x32/apps/firefox.png"⟩
      "/usr/share/icons/hicolor/32x32/apps/firefox.png").2.2 rfl (by decide)
      rfl⟩

/-- Claim C8: for every environment, heap, icon name and size, including
non-positive sizes and unknown names, get_icon_path completes without
reaching any null-dereference branch. -/
theorem C8_no_crash (env : IconEnv) (hp : Heap) (icon_name : String)
    (size : Int) : exceptOk (get_icon_path env hp icon_name size) = true := by
  cases henv : env.theme with
  | none => simp [get_icon_path, henv, exceptOk]
  | some t =>
    cases hlook : t icon_name size with
    | none =>
      simp [get_icon_path, gtk_icon_theme_lookup_icon, henv, hlook, exceptOk]
    | some i =>
      cases hf : i.filename <;>
        simp [get_icon_path, gtk_icon_theme_lookup_icon,
          gtk_icon_info_get_filename, c_strdup, g_object_unref, henv, hlook,
          hf, exceptOk]

/-- Claim C9: two successful calls with identical arguments return two
distinct addresses, each holding its own copy of the path; freeing the
first leaves the second copy intact. -/
theorem C9_independent_copies (env : IconEnv) (hp : Heap)
    (icon_name : String) (size : Int) (t : ThemeFn) (i : GtkIconInfo)
    (p : String) (h1 : env.theme = some t) (h2 : t icon_name size = some i)
    (h3 : i.filename = some p) :
    ∃ a1 hp1 a2 hp2,
      get_icon_path env hp icon_name size = Except.ok (some a1, hp1, true)
      ∧ get_icon_path env hp1 icon_name size = Except.ok (some a2, hp2, true)
      ∧ a1 ≠ a2
      ∧ hp2.load a1 = some p
      ∧ hp2.load a2 = some p
      ∧ (free_icon_path hp2 (some a1)).load a2 = some p
      ∧ (free_icon_path hp2 (some a1)).load a1 = none := by
  have hlt1 : hp.mem.length < (hp.mem ++ [some p]).length := by
    simp
  refine ⟨hp.mem.length, ⟨hp.mem ++ [some p]⟩,
    (hp.mem ++ [some p]).length, ⟨(hp.mem ++ [some p]) ++ [some p]⟩,
    get_icon_path_found env hp icon_name size t i p h1 h2 h3,
    get_icon_path_found env ⟨hp.mem ++ [some p]⟩ icon_name size t i p h1 h2
      h3,
    ?_, ?_, ?_, ?_, ?_⟩
  · simp
  · show ((hp.mem ++ [some p]) ++ [some p]).getD hp.mem.length none
      = some p
    rw [list_getD_append_left _ _ _ hlt1]
    exact list_getD_concat_length hp.mem (some p) none
  · exact list_getD_concat_length (hp.mem ++ [some p]) (some p) none
  · show ((((hp.mem ++ [some p]) ++ [some p]).set hp.mem.length
        none).getD ((hp.mem ++ [some p]).length) none) = some p
    rw [list_getD_set_ne _ _ _ (Nat.ne_of_lt hlt1)]
    exact list_getD_concat_length (hp.mem ++ [some p]) (some p) none
  · show ((((hp.mem ++ [some p]) ++ [some p]).set hp.mem.length
        none).getD hp.mem.length none) = none
    refine list_getD_set_self _ _ _ ?_
    simp

/-- Witness for C9 at the concrete theme and the empty heap. -/
theorem C9_independent_copies_witness :
    ∃ a1 hp1 a2 hp2,
      get_icon_path iconEnvA heap0 "firefox" 32
        = Except.ok (some a1, hp1, true)
      ∧ get_icon_path iconEnvA hp1 "firefox" 32
        = Except.ok (some a2, hp2, true)
      ∧ a1 ≠ a2
      ∧ hp2.load a1
        = some "/usr/share/icons/hicolor/32x32/apps/firefox.png"
      ∧ hp2.load a2
        = some "/usr/share/icons/hicolor/32x32/apps/firefox.png"
      ∧ (free_icon_path hp2 (some a1)).load a2
        = some "/usr/share/icons/hicolor/32x32/apps/firefox.png"
      ∧ (free_icon_path hp2 (some a1)).load a1 = none :=
  C9_independent_copies iconEnvA heap0 "firefox" 32 themeA
    ⟨some "/usr/share/icons/hicolor/32x32/apps/firefox.png"⟩
    "/usr/share/icons/hicolor/32x32/apps/firefox.png" rfl (by decide) rfl

/-- Claim C10: free_icon_path forwards to free, and freeing an absent
(null) path leaves the heap untouched. -/
theorem C10_free_null_noop (hp : Heap) :
    free_icon_path hp none = hp ∧ free_icon_path hp none = c_free hp none :=
  ⟨rfl, rfl⟩

end VaxpDock
